import Mathlib

/-!
Verification of the PERSONAL-AI-ASSISTANT backend (FastAPI + RAG orchestration).

Shallow embedding of the repository's services:
  * `app/services/idea_service.py`  — `process_idea`
  * `app/services/llm_service.py`   — `run_llm`, `run_llm_with_context`, `run_llm_structured`
  * `app/services/task_service.py`  — `extract_tasks`
  * `app/rag/qdrant_store.py`       — `_ensure_collection`, `delete`, `get_all`, `search`
  * `app/rag/retriever.py`          — `retrieve_similar_ideas`
  * `app/prompts/prompt.py`         — `load_prompt`
  * `app/api/routes/ideas.py`       — `submit_idea`

External collaborators (the Groq chat API, the Qdrant server, Python's
`json.loads`, the tenacity retry decorator) are modelled as explicit oracles
or state: attempt oracles `Nat → CallOutcome` for the chat API, a list of
stored points for the Qdrant collection, and a parse function parameter for
`json.loads`.  Python floats are modelled as `Rat`; the only float operations
the code performs are comparison with the literals used here.
-/

/-- Python values as produced by `json.loads`: JSON null / bool / number /
string / array / object.  Numbers are modelled as integers (the literals in
this code base are integral). -/
inductive PyJson where
  | null
  | bool (b : Bool)
  | num (n : Int)
  | str (s : String)
  | arr (elems : List PyJson)
  | obj (fields : List (String × PyJson))
deriving Repr

/-- `True` exactly for JSON objects (Python dicts). -/
def PyJson.isObj : PyJson → Bool
  | .obj _ => true
  | _ => false

/-- A Python dict with string keys, in insertion order. -/
abbrev PyDict := List (String × PyJson)

/-- `d.get(k)` / `k in d`: the value stored at `k`, if any. -/
def dictGet? : PyDict → String → Option PyJson
  | [], _ => none
  | p :: rest, k => if p.1 = k then some p.2 else dictGet? rest k

/-- Overwrite every binding of key `k` with value `v`, keeping positions. -/
def dictReplace : PyDict → String → PyJson → PyDict
  | [], _, _ => []
  | p :: rest, k, v => (if p.1 = k then (k, v) else p) :: dictReplace rest k v

/-- `d[k] = v` on a Python dict: replace the value at an existing key,
otherwise append the new binding at the end (insertion order). -/
def dictSet (d : PyDict) (k : String) (v : PyJson) : PyDict :=
  if (dictGet? d k).isSome then dictReplace d k v else d ++ [(k, v)]

/-- Exceptions that the embedded code can raise past its own handlers. -/
inductive PyExc where
  | typeError
  | ragException (msg : String)
deriving Repr, DecidableEq

/-- Result of running a Python function: a returned value or a raised
exception. -/
inductive PyResult (α : Type) where
  | ok (v : α)
  | raised (e : PyExc)
deriving Repr

/-- `True` when the call returned normally. -/
def PyResult.isOk {α : Type} : PyResult α → Bool
  | .ok _ => true
  | .raised _ => false

/-- Outcome of `json.loads` on a string: a parsed value, or a
`json.JSONDecodeError`. -/
inductive ParseResult where
  | ok (j : PyJson)
  | decodeError
deriving Repr

/-- Looking a key up in a returned dict; `none` when the call raised or the
key is absent. -/
def resultGet? (r : PyResult PyDict) (k : String) : Option PyJson :=
  match r with
  | .ok d => dictGet? d k
  | .raised _ => none

/-- The environment one `process_idea` call runs in, fixing the outcomes of
the provider calls it makes (`app/services/idea_service.py`):
`promptFile` is what `PROMPT_PATH.read_text()` yields (`none` =
`FileNotFoundError`), `retrieved` is the list returned by
`retrieve_similar_ideas(raw_text)`, and `llmOutput` the text returned by
`run_llm_with_context`.  The model covers executions in which the retrieval,
generation and storage provider calls succeed; `store_idea`'s returned id
does not flow into the response. -/
structure IdeaEnv where
  promptFile : Option String
  retrieved : List String
  llmOutput : String
deriving Repr, DecidableEq

/-- `process_idea` from `app/services/idea_service.py`, parameterised by the
external parse function `loads` (Python's `json.loads`).  Mirrors the source:
load the prompt (soft-fail on `FileNotFoundError`), retrieve context, call
the LLM, optionally store, then parse; on a parsed dict annotate
`context_used` and `related_ideas_count`; item assignment on a parsed
non-dict raises `TypeError`; on `JSONDecodeError` return the error dict with
the verbatim raw output. -/
def process_idea (loads : String → ParseResult) (env : IdeaEnv)
    (store_in_memory : Bool := true) : PyResult PyDict :=
  match env.promptFile with
  | none => .ok [("error", .str "System configuration error"), ("raw_output", .null)]
  | some _ =>
    let related_ideas := env.retrieved
    let llm_output := env.llmOutput
    let _ := store_in_memory
    match loads llm_output with
    | .ok (.obj fields) =>
        .ok (dictSet (dictSet fields "context_used" (.bool (decide (related_ideas.length > 0))))
              "related_ideas_count" (.num related_ideas.length))
    | .ok _ => .raised .typeError
    | .decodeError =>
        .ok [("error", .str "LLM returned invalid JSON"),
             ("raw_output", .str llm_output),
             ("context_used", .bool (decide (related_ideas.length > 0)))]

/-- HTTP outcome of a route handler: a 200 body, or an `HTTPException` with
a status code. -/
inductive HttpOutcome where
  | ok (body : PyDict)
  | httpError (statusCode : Nat)
deriving Repr

/-- `submit_idea` (`POST /ideas/`) from `app/api/routes/ideas.py`: call
`process_idea`; a returned dict is sent back as-is (the `"error" in result`
check returns `result` on both branches); a raised `RAGException` maps to
503 and any other exception to 500. -/
def submit_idea (loads : String → ParseResult) (env : IdeaEnv)
    (store_in_memory : Bool := true) : HttpOutcome :=
  match process_idea loads env store_in_memory with
  | .ok result => .ok result
  | .raised (.ragException _) => .httpError 503
  | .raised _ => .httpError 500

/-- The settings of `app/core/config.py` that the modelled code reads.
Python floats are modelled as `Rat`. -/
structure Settings where
  groq_model : String
  llm_temperature : Rat
  llm_max_tokens : Int
  rag_top_k : Int
  rag_score_threshold : Rat
  qdrant_collection_name : String
  voyage_embedding_dim : Int
deriving Repr, DecidableEq

/-- The default values declared in `app/core/config.py` for the fields the
claims touch. -/
def defaultSettings : Settings :=
  { groq_model := "llama-3.3-70b-versatile"
    llm_temperature := 3/10
    llm_max_tokens := 1024
    rag_top_k := 5
    rag_score_threshold := 7/10
    qdrant_collection_name := "ideas"
    voyage_embedding_dim := 1024 }

/-- Python `a or d` for an `int | None` argument `a`: `None` and `0` are
falsy, so both select the default `d`. -/
def pyOrInt (a : Option Int) (d : Int) : Int :=
  match a with
  | none => d
  | some v => if v = 0 then d else v

/-- Python `a or d` for a `float | None` argument `a`: `None` and `0.0` are
falsy, so both select the default `d`. -/
def pyOrRat (a : Option Rat) (d : Rat) : Rat :=
  match a with
  | none => d
  | some v => if v = 0 then d else v

/-- Outcome of one `client.chat.completions.create(...)` call against the
Groq API: the generated text, or a raised exception with message `m`. -/
inductive CallOutcome where
  | ok (s : String)
  | exc (m : String)
deriving Repr, DecidableEq

/-- Exceptions escaping the LLM client functions: an `LLMError` raised by a
function body, or tenacity's `RetryError` wrapping the final attempt's
exception once `stop_after_attempt` is reached. -/
inductive LLMExc where
  | llmError (msg : String)
  | retryError (inner : LLMExc)
deriving Repr, DecidableEq

/-- One request to `client.chat.completions.create` in
`app/services/llm_service.py`: model name, the two messages, temperature,
max tokens, and the optional `response_format` type tag. -/
structure ChatRequest where
  model : String
  systemContent : String
  userContent : String
  temperature : Rat
  maxTokens : Int
  responseFormat : Option String
deriving Repr, DecidableEq

/-- The request `run_llm` sends (lines 40–48 of
`app/services/llm_service.py`): `temperature or settings.llm_temperature`
and no `response_format` argument at all. -/
def run_llm_request (settings : Settings) (system_prompt user_input : String)
    (temperature : Option Rat) : ChatRequest :=
  { model := settings.groq_model
    systemContent := system_prompt
    userContent := user_input
    temperature := pyOrRat temperature settings.llm_temperature
    maxTokens := settings.llm_max_tokens
    responseFormat := none }

/-- The request `run_llm_structured` sends (lines 101–110): the fixed
temperature `0.1`, and `response_format={"type": "json_object"} if
response_format else None` — JSON mode is requested only when the caller
passed a truthy (non-empty) `response_format` dict. -/
def run_llm_structured_request (settings : Settings)
    (system_prompt user_input : String) (response_format : Option PyDict) :
    ChatRequest :=
  { model := settings.groq_model
    systemContent := system_prompt
    userContent := user_input
    temperature := 1/10
    maxTokens := settings.llm_max_tokens
    responseFormat :=
      match response_format with
      | some fields => if fields.isEmpty then none else some "json_object"
      | none => none }

/-- tenacity's `wait_exponential(min=1, max=10)` wait (seconds) before retry
`attempt_number + 1`: `2 ^ (attempt_number - 1)` clamped into `[1, 10]`,
with `multiplier = 1` and `exp_base = 2`. -/
def wait_exponential_min1_max10 (attempt_number : Nat) : Rat :=
  max (max 0 1) (min ((2 : Rat) ^ (attempt_number - 1)) 10)

/-- The body of `run_llm` at global attempt index `k`: one API call, any
exception wrapped into `LLMError("Failed to generate response: ...")`. -/
def run_llm_attempt (attempts : Nat → CallOutcome) (k : Nat) :
    Except LLMExc String :=
  match attempts k with
  | .ok s => .ok s
  | .exc m => .error (.llmError ("Failed to generate response: " ++ m))

/-- tenacity `@retry(stop=stop_after_attempt(fuel))` around the `run_llm`
body, threading the global attempt index: each failed attempt is retried
until the attempt budget is spent, after which `RetryError` wraps the last
attempt's exception.  Returns the result and the next unused attempt
index. -/
def run_llm_retry (attempts : Nat → CallOutcome) :
    Nat → Nat → Except LLMExc String × Nat
  | 0, k => (.error (.retryError (.llmError "")), k)
  | fuel + 1, k =>
    match run_llm_attempt attempts k with
    | .ok s => (.ok s, k + 1)
    | .error e =>
      if fuel = 0 then (.error (.retryError e), k + 1)
      else run_llm_retry attempts fuel (k + 1)

/-- `run_llm` from `app/services/llm_service.py`: the body above under
`@retry(stop=stop_after_attempt(3), wait=wait_exponential(min=1, max=10))`.
The prompt arguments shape the request (`run_llm_request`); the attempt
oracle fixes each call's outcome. -/
def run_llm (attempts : Nat → CallOutcome)
    (system_prompt user_input : String) (temperature : Option Rat) :
    Except LLMExc String :=
  let _ := (system_prompt, user_input, temperature)
  (run_llm_retry attempts 3 0).1

/-- The context block `run_llm_with_context` appends when `context` is
truthy: `"\n\n---\n**Relevant Context:**\n"` followed by the items, each
prefixed with `"- "` and newline-joined. -/
def build_context_block (context : List String) : String :=
  "\n\n---\n**Relevant Context:**\n" ++
    String.intercalate "\n" (context.map (fun c => "- " ++ c))

/-- The enhanced prompt of `run_llm_with_context`: the context block is
appended only when `context` is truthy (`if context:` — `None` and the
empty list are falsy). -/
def enhanced_prompt (system_prompt : String) (context : Option (List String)) :
    String :=
  match context with
  | some ctx => if ctx.isEmpty then system_prompt
                else system_prompt ++ build_context_block ctx
  | none => system_prompt

/-- The outer tenacity loop of `run_llm_with_context`: its body is the call
to `run_llm`, which is itself decorated, so each outer attempt consumes up
to three API attempts; outer exhaustion wraps the inner exception (itself a
`RetryError`) in another `RetryError`. -/
def run_llm_with_context_retry (attempts : Nat → CallOutcome) :
    Nat → Nat → Except LLMExc String × Nat
  | 0, k => (.error (.retryError (.llmError "")), k)
  | fuel + 1, k =>
    match run_llm_retry attempts 3 k with
    | (.ok s, next) => (.ok s, next)
    | (.error e, next) =>
      if fuel = 0 then (.error (.retryError e), next)
      else run_llm_with_context_retry attempts fuel next

/-- `run_llm_with_context` from `app/services/llm_service.py`: build the
enhanced prompt, then call `run_llm`, all under its own
`@retry(stop=stop_after_attempt(3), wait=wait_exponential(min=1, max=10))`
decorator. -/
def run_llm_with_context (attempts : Nat → CallOutcome)
    (system_prompt user_input : String) (context : Option (List String))
    (temperature : Option Rat) : Except LLMExc String :=
  let _ := (enhanced_prompt system_prompt context, user_input, temperature)
  (run_llm_with_context_retry attempts 3 0).1

/-- `run_llm_structured` from `app/services/llm_service.py`: it carries NO
`@retry` decorator, so it performs a single API call and wraps any exception
into `LLMError("Failed to generate structured response: ...")`. -/
def run_llm_structured (attempts : Nat → CallOutcome)
    (system_prompt user_input : String) (response_format : Option PyDict) :
    Except LLMExc String :=
  let _ := (system_prompt, user_input, response_format)
  match attempts 0 with
  | .ok s => .ok s
  | .exc m => .error (.llmError ("Failed to generate structured response: " ++ m))

/-- The environment of one `extract_tasks` call
(`app/services/task_service.py`): the task-extraction prompt template file
(`none` = `FileNotFoundError`) and the attempt oracle of the structured LLM
call it makes. -/
structure TaskEnv where
  promptFile : Option String
  attempts : Nat → CallOutcome

/-- The request `extract_tasks` causes `run_llm_structured` to send: the
`{thought}` placeholder substituted into the template, and — decisive for
the JSON-mode claim — `response_format` omitted, i.e. `None`. -/
def extract_tasks_request (settings : Settings) (template thought : String) :
    ChatRequest :=
  run_llm_structured_request settings
    (template.replace "\x7bthought\x7d" thought) thought none

/-- `extract_tasks` from `app/services/task_service.py`, parameterised by
the external `json.loads`.  Missing prompt file → `[]`; `run_llm_structured`
raising `LLMError` → caught by `except Exception` → `[]`;
`json.JSONDecodeError` → `[]`; `data.get("tasks", [])` → the stored value or
`[]`; `data.get` on a parsed non-dict raises `AttributeError`/`TypeError`,
caught by `except Exception` → `[]`. -/
def extract_tasks (loads : String → ParseResult) (env : TaskEnv)
    (thought : String) : PyJson :=
  match env.promptFile with
  | none => .arr []
  | some template =>
    let formatted_prompt := template.replace "\x7bthought\x7d" thought
    match run_llm_structured env.attempts formatted_prompt thought none with
    | .error _ => .arr []
    | .ok response =>
      match loads response with
      | .decodeError => .arr []
      | .ok (.obj fields) => (dictGet? fields "tasks").getD (.arr [])
      | .ok _ => .arr []

/-- One collection known to the Qdrant server: its name and the vector
configuration `_ensure_collection` creates it with. -/
structure CollectionInfo where
  name : String
  size : Int
  distance : String
deriving Repr, DecidableEq

namespace QdrantVectorStore

/-- `QdrantVectorStore._ensure_collection` (`app/rag/qdrant_store.py`,
lines 51–71) over the server's collection list: read the existing names and
call `create_collection` (with the embedding dimension and cosine distance)
only when `collection_name` is not among them.  Returns the new collection
list and whether `create_collection` was invoked. -/
def ensure_collection (cols : List CollectionInfo) (collection_name : String)
    (embedding_dim : Int) : List CollectionInfo × Bool :=
  let existing_names := cols.map (fun c => c.name)
  if collection_name ∈ existing_names then
    (cols, false)
  else
    (cols ++ [{ name := collection_name, size := embedding_dim,
                distance := "Cosine" }], true)

/-- One point stored in the collection: id, vector, payload. -/
structure StoredPoint where
  id : String
  vector : List Rat
  payload : PyDict

/-- The contents of the named collection on the Qdrant server. -/
abbrev QdrantState := List StoredPoint

/-- `QdrantVectorStore.delete` (lines 255–273) over the collection state,
for executions in which the remote call succeeds: `client.delete` with a
`PointIdsList` removes the matching points (a Qdrant delete of an absent id
also succeeds), and the method then returns `True` unconditionally. -/
def delete (state : QdrantState) (doc_id : String) : QdrantState × Bool :=
  (state.filter (fun p => p.id ≠ doc_id), true)

/-- One record as returned by `get_all`: id, the payload's `"text"` entry
(`payload.get("text", "")`), and the remaining payload as metadata. -/
structure MemoryRecord where
  id : String
  text : PyJson
  metadata : PyDict

/-- `QdrantVectorStore.get_all` (lines 228–253) for executions in which the
remote call succeeds: `client.scroll` yields up to `limit` stored points,
each mapped to id / text / metadata. -/
def get_all (state : QdrantState) (limit : Nat := 100) : List MemoryRecord :=
  (state.take limit).map (fun p =>
    { id := p.id
      text := (dictGet? p.payload "text").getD (.str "")
      metadata := p.payload.filter (fun kv => kv.1 ≠ "text") })

/-- The effective `(limit, score_threshold)` that `QdrantVectorStore.search`
(lines 181–183) passes to `client.query_points`:
`top_k = top_k or settings.rag_top_k` and
`score_threshold = score_threshold or settings.rag_score_threshold`, both
Python-truthiness defaulting. -/
def search_params (settings : Settings) (top_k : Option Int)
    (score_threshold : Option Rat) : Int × Rat :=
  (pyOrInt top_k settings.rag_top_k,
   pyOrRat score_threshold settings.rag_score_threshold)

end QdrantVectorStore

/-- The effective `(top_k, score_threshold)` a `retrieve_similar_ideas` call
(`app/rag/retriever.py`, lines 82–83) reaches `client.query_points` with:
the retriever applies its own truthiness defaulting, then passes the results
on to `QdrantVectorStore.search`, which applies the same defaulting again. -/
def retrieve_similar_ideas_params (settings : Settings) (top_k : Option Int)
    (score_threshold : Option Rat) : Int × Rat :=
  let tk := pyOrInt top_k settings.rag_top_k
  let st := pyOrRat score_threshold settings.rag_score_threshold
  QdrantVectorStore.search_params settings (some tk) (some st)

/-- Outcome of a `load_prompt` call: a value returned normally, or a raised
`ConfigurationError` (the failure mode the spec describes; the source never
produces it). -/
inductive LoadPromptOutcome where
  | returned (s : String)
  | raisedConfigurationError (msg : String)
deriving Repr, DecidableEq

/-- `load_prompt` from `app/prompts/prompt.py`, over a file system `fs`
mapping paths to contents (`none` = `FileNotFoundError` on `open`): read the
file and substitute each kwarg into its `{{ key }}` placeholder; a
`FileNotFoundError` is caught and the literal string
`"Prompt file not found."` is RETURNED as a normal value. -/
def load_prompt (fs : String → Option String) (prompt_file : String)
    (kwargs : List (String × String)) : LoadPromptOutcome :=
  match fs prompt_file with
  | some content =>
      .returned (kwargs.foldl
        (fun p kv => p.replace ("\x7b\x7b " ++ kv.1 ++ " \x7d\x7d") kv.2) content)
  | none => .returned "Prompt file not found."

/-- An attempt oracle on which every API call raises, message "boom". -/
def attemptsAllFail : Nat → CallOutcome := fun _ => .exc "boom"

/-- An attempt oracle whose first call raises and whose second succeeds:
a single transient failure. -/
def attemptsFailThenOk : Nat → CallOutcome :=
  fun n => if n = 0 then .exc "boom" else .ok "hello"

/-- A parse function standing for `json.loads` on the concrete inputs of the
witnesses: `"{}"` is the empty object, `"[1, 2]"` a two-element array, and
anything else a `JSONDecodeError`. -/
def loadsForWitness : String → ParseResult :=
  fun s =>
    if s = "\x7b\x7d" then .ok (.obj [])
    else if s = "[1, 2]" then .ok (.arr [.num 1, .num 2])
    else .decodeError

/-- A concrete `process_idea` environment: prompt present, one retrieved
idea, and the LLM answering with the empty JSON object. -/
def ideaEnvObj : IdeaEnv :=
  { promptFile := some "prompt", retrieved := ["a related idea"],
    llmOutput := "\x7b\x7d" }

/-- A concrete `process_idea` environment: prompt present, no retrieved
ideas, and the LLM answering with text that is not JSON. -/
def ideaEnvBad : IdeaEnv :=
  { promptFile := some "prompt", retrieved := [],
    llmOutput := "Sure! Here is your JSON:" }

/-- A concrete `process_idea` environment: prompt present and the LLM
answering with a JSON array — valid JSON that is not an object. -/
def ideaEnvArr : IdeaEnv :=
  { promptFile := some "prompt", retrieved := [], llmOutput := "[1, 2]" }

theorem dictGet_dictReplace_same (d : PyDict) (k : String) (v : PyJson)
    (h : (dictGet? d k).isSome) : dictGet? (dictReplace d k v) k = some v := by
  induction d with
  | nil => simp [dictGet?] at h
  | cons p rest ih =>
    by_cases hp : p.1 = k
    · simp [dictReplace, dictGet?, hp]
    · simp only [dictGet?, if_neg hp] at h
      simp [dictReplace, dictGet?, hp, ih h]

theorem dictGet_dictReplace_other (d : PyDict) (k k' : String) (v : PyJson)
    (h : k ≠ k') : dictGet? (dictReplace d k' v) k = dictGet? d k := by
  induction d with
  | nil => simp [dictReplace]
  | cons p rest ih =>
    by_cases hp : p.1 = k'
    · simp [dictReplace, dictGet?, hp, Ne.symm h, ih]
    · by_cases hk : p.1 = k
      · simp [dictReplace, dictGet?, hp, hk, h]
      · simp [dictReplace, dictGet?, hp, hk, ih]

theorem dictGet_append_single_same (d : PyDict) (k : String) (v : PyJson)
    (h : dictGet? d k = none) : dictGet? (d ++ [(k, v)]) k = some v := by
  induction d with
  | nil => simp [dictGet?]
  | cons p rest ih =>
    by_cases hp : p.1 = k
    · simp [dictGet?, hp] at h
    · simp only [dictGet?, if_neg hp] at h
      simp [dictGet?, hp, ih h]

theorem dictGet_append_single_other (d : PyDict) (k k' : String) (v : PyJson)
    (h : k ≠ k') : dictGet? (d ++ [(k', v)]) k = dictGet? d k := by
  induction d with
  | nil => simp [dictGet?, Ne.symm h]
  | cons p rest ih =>
    by_cases hp : p.1 = k
    · simp [dictGet?, hp]
    · simp [dictGet?, hp, ih]

theorem dictGet_dictSet_same (d : PyDict) (k : String) (v : PyJson) :
    dictGet? (dictSet d k v) k = some v := by
  unfold dictSet
  by_cases h : (dictGet? d k).isSome
  · simpa [h] using dictGet_dictReplace_same d k v h
  · have hn : dictGet? d k = none := by
      cases hd : dictGet? d k with
      | none => rfl
      | some x => simp [hd] at h
    simpa [h] using dictGet_append_single_same d k v hn

theorem dictGet_dictSet_other (d : PyDict) (k k' : String) (v : PyJson)
    (h : k ≠ k') : dictGet? (dictSet d k' v) k = dictGet? d k := by
  unfold dictSet
  by_cases ha : (dictGet? d k').isSome
  · simpa [ha] using dictGet_dictReplace_other d k k' v h
  · simpa [ha] using dictGet_append_single_other d k k' v h

theorem pyOrInt_self (d : Int) : pyOrInt (some d) d = d := by
  by_cases hd : d = 0 <;> simp [pyOrInt, hd]

theorem pyOrRat_self (d : Rat) : pyOrRat (some d) d = d := by
  by_cases hd : d = 0 <;> simp [pyOrRat, hd]

theorem pyOrInt_ne_zero (a : Option Int) (d : Int) (h : d ≠ 0) :
    pyOrInt a d ≠ 0 := by
  cases a with
  | none => simpa [pyOrInt] using h
  | some v => by_cases hv : v = 0 <;> simp [pyOrInt, hv, h]

theorem pyOrRat_ne_zero (a : Option Rat) (d : Rat) (h : d ≠ 0) :
    pyOrRat a d ≠ 0 := by
  cases a with
  | none => simpa [pyOrRat] using h
  | some v => by_cases hv : v = 0 <;> simp [pyOrRat, hv, h]

/-- C1: for every `process_idea` call that reaches the parse step and whose
LLM output parses as a JSON object, the returned dict's
`related_ideas_count` equals the length of the list
`retrieve_similar_ideas` returned for that input, and `context_used` is
`true` iff that length is nonzero. -/
theorem C1_process_idea_annotation (loads : String → ParseResult)
    (env : IdeaEnv) (store_in_memory : Bool) (tmpl : String) (fields : PyDict)
    (hp : env.promptFile = some tmpl)
    (h : loads env.llmOutput = .ok (.obj fields)) :
    (process_idea loads env store_in_memory).isOk = true
    ∧ resultGet? (process_idea loads env store_in_memory) "related_ideas_count"
        = some (.num (env.retrieved.length : Int))
    ∧ (resultGet? (process_idea loads env store_in_memory) "context_used"
        = some (.bool true) ↔ 0 < env.retrieved.length) := by
  have e : process_idea loads env store_in_memory
      = .ok (dictSet (dictSet fields "context_used"
              (.bool (decide (env.retrieved.length > 0))))
            "related_ideas_count" (.num (env.retrieved.length : Int))) := by
    simp [process_idea, hp, h]
  rw [e]
  refine ⟨rfl, ?_, ?_⟩
  · exact dictGet_dictSet_same _ _ _
  · show dictGet? _ "context_used" = _ ↔ _
    rw [dictGet_dictSet_other _ _ _ _ (by decide), dictGet_dictSet_same]
    constructor
    · intro hcu
      have : decide (env.retrieved.length > 0) = true := by
        injection hcu with hv
        injection hv
      exact of_decide_eq_true this
    · intro hlen
      simp [hlen]

/-- C1 witness: at a concrete environment with one retrieved idea and the
LLM answering the empty JSON object. -/
theorem C1_process_idea_annotation_witness :
    (process_idea loadsForWitness ideaEnvObj true).isOk = true
    ∧ resultGet? (process_idea loadsForWitness ideaEnvObj true)
        "related_ideas_count" = some (.num (ideaEnvObj.retrieved.length : Int))
    ∧ (resultGet? (process_idea loadsForWitness ideaEnvObj true) "context_used"
        = some (.bool true) ↔ 0 < ideaEnvObj.retrieved.length) :=
  C1_process_idea_annotation loadsForWitness ideaEnvObj true "prompt" []
    rfl rfl

/-- C2: for every `process_idea` call that reaches the parse step and whose
LLM output fails to parse as JSON, the call does not raise and returns a
dict with an `"error"` key and a `"raw_output"` key holding the verbatim
LLM output text. -/
theorem C2_process_idea_parse_failure (loads : String → ParseResult)
    (env : IdeaEnv) (store_in_memory : Bool) (tmpl : String)
    (hp : env.promptFile = some tmpl)
    (h : loads env.llmOutput = .decodeError) :
    process_idea loads env store_in_memory
      = .ok [("error", .str "LLM returned invalid JSON"),
             ("raw_output", .str env.llmOutput),
             ("context_used", .bool (decide (env.retrieved.length > 0)))]
    ∧ (process_idea loads env store_in_memory).isOk = true
    ∧ (resultGet? (process_idea loads env store_in_memory) "error").isSome = true
    ∧ resultGet? (process_idea loads env store_in_memory) "raw_output"
        = some (.str env.llmOutput) := by
  have e : process_idea loads env store_in_memory
      = .ok [("error", .str "LLM returned invalid JSON"),
             ("raw_output", .str env.llmOutput),
             ("context_used", .bool (decide (env.retrieved.length > 0)))] := by
    simp [process_idea, hp, h]
  rw [e]
  exact ⟨rfl, rfl, rfl, rfl⟩

/-- C2 witness: at a concrete environment where the LLM answers prose that
is not JSON. -/
theorem C2_process_idea_parse_failure_witness :
    process_idea loadsForWitness ideaEnvBad true
      = .ok [("error", .str "LLM returned invalid JSON"),
             ("raw_output", .str ideaEnvBad.llmOutput),
             ("context_used", .bool (decide (ideaEnvBad.retrieved.length > 0)))]
    ∧ (process_idea loadsForWitness ideaEnvBad true).isOk = true
    ∧ (resultGet? (process_idea loadsForWitness ideaEnvBad true) "error").isSome
        = true
    ∧ resultGet? (process_idea loadsForWitness ideaEnvBad true) "raw_output"
        = some (.str ideaEnvBad.llmOutput) :=
  C2_process_idea_parse_failure loadsForWitness ideaEnvBad true "prompt"
    rfl rfl

/-- C9: whenever the LLM output parses as valid JSON that is not a JSON
object (an array, a bare number, ...), `process_idea` raises `TypeError` at
the annotation step, and `POST /ideas/` maps that uncaught exception to a
500 instead of a structured error payload. -/
theorem C9_process_idea_non_object_type_error (loads : String → ParseResult)
    (env : IdeaEnv) (store_in_memory : Bool) (tmpl : String) (j : PyJson)
    (hp : env.promptFile = some tmpl)
    (h : loads env.llmOutput = .ok j)
    (hno : j.isObj = false) :
    process_idea loads env store_in_memory = .raised .typeError
    ∧ submit_idea loads env store_in_memory = .httpError 500 := by
  have e : process_idea loads env store_in_memory = .raised .typeError := by
    cases j with
    | obj fields => simp [PyJson.isObj] at hno
    | null => simp [process_idea, hp, h]
    | bool b => simp [process_idea, hp, h]
    | num n => simp [process_idea, hp, h]
    | str s => simp [process_idea, hp, h]
    | arr xs => simp [process_idea, hp, h]
  exact ⟨e, by simp [submit_idea, e]⟩

/-- C9 witness: the LLM answering the JSON array `[1, 2]`. -/
theorem C9_process_idea_non_object_type_error_witness :
    process_idea loadsForWitness ideaEnvArr true = .raised .typeError
    ∧ submit_idea loadsForWitness ideaEnvArr true = .httpError 500 :=
  C9_process_idea_non_object_type_error loadsForWitness ideaEnvArr true
    "prompt" (.arr [.num 1, .num 2]) rfl rfl rfl

/-- C3 counterexample: on an oracle whose first API call raises and whose
second succeeds, the decorated `run_llm` retries and succeeds, but
`run_llm_structured` — claimed to retry like every LLM client call — raises
`LLMError` after its single attempt, so the claim fails as stated. -/
theorem C3_counterexample :
    run_llm attemptsFailThenOk "sys" "user" none = .ok "hello"
    ∧ run_llm_structured attemptsFailThenOk "sys" "user" none
        = .error (.llmError "Failed to generate structured response: boom") := by
  constructor <;> rfl

/-- C3 (amended): `run_llm` and `run_llm_with_context` retry on failure with
exponential backoff bounded in `[1, 10]` seconds, up to 3 attempts each
(nested for the with-context variant), and after exhausting attempts raise
tenacity's `RetryError` wrapping the last attempt's `LLMError`;
`run_llm_structured` has no retry decorator: it makes a single attempt and
raises `LLMError` on its failure. -/
theorem C3_retry_behaviour (attempts attempts2 : Nat → CallOutcome)
    (m s sp ui : String) (ctx : Option (List String)) (temp : Option Rat)
    (n : Nat)
    (hfail : ∀ i, attempts i = .exc m)
    (h0 : attempts2 0 = .exc m) (h1 : attempts2 1 = .ok s) :
    run_llm attempts sp ui temp
      = .error (.retryError (.llmError ("Failed to generate response: " ++ m)))
    ∧ run_llm_with_context attempts sp ui ctx temp
      = .error (.retryError (.retryError
          (.llmError ("Failed to generate response: " ++ m))))
    ∧ run_llm attempts2 sp ui temp = .ok s
    ∧ run_llm_structured attempts sp ui none
      = .error (.llmError ("Failed to generate structured response: " ++ m))
    ∧ 1 ≤ wait_exponential_min1_max10 n ∧ wait_exponential_min1_max10 n ≤ 10 := by
  refine ⟨?_, ?_, ?_, ?_, ?_, ?_⟩
  · simp [run_llm, run_llm_retry, run_llm_attempt, hfail]
  · simp [run_llm_with_context, run_llm_with_context_retry, run_llm_retry,
      run_llm_attempt, hfail]
  · simp [run_llm, run_llm_retry, run_llm_attempt, h0, h1]
  · simp [run_llm_structured, hfail]
  · have hm : (max (0 : Rat) 1) = 1 := by norm_num
    rw [wait_exponential_min1_max10, hm]
    exact le_max_left _ _
  · rw [wait_exponential_min1_max10]
    exact max_le (by norm_num) (min_le_right _ _)

/-- C3 witness: the amended behaviour at the concrete always-failing and
fail-then-succeed oracles. -/
theorem C3_retry_behaviour_witness :
    run_llm attemptsAllFail "sys" "user" none
      = .error (.retryError (.llmError ("Failed to generate response: " ++ "boom")))
    ∧ run_llm_with_context attemptsAllFail "sys" "user" none none
      = .error (.retryError (.retryError
          (.llmError ("Failed to generate response: " ++ "boom"))))
    ∧ run_llm attemptsFailThenOk "sys" "user" none = .ok "hello"
    ∧ run_llm_structured attemptsAllFail "sys" "user" none
      = .error (.llmError ("Failed to generate structured response: " ++ "boom"))
    ∧ 1 ≤ wait_exponential_min1_max10 2 ∧ wait_exponential_min1_max10 2 ≤ 10 :=
  C3_retry_behaviour attemptsAllFail attemptsFailThenOk "boom" "hello"
    "sys" "user" none none 2 (fun _ => rfl) rfl rfl

/-- C4: the chat request `extract_tasks` causes `run_llm_structured` to send
uses the fixed temperature `0.1` (lower than the configured default `0.3`),
but its `response_format` is `None` — `extract_tasks` passes no
`response_format`, and `{"type": "json_object"} if response_format else
None` then selects `None` — so JSON output mode is NOT requested, contrary
to the claim and to `run_llm_structured`'s own docstring. -/
theorem C4_structured_request_json_mode_missing (settings : Settings)
    (template thought : String) :
    (extract_tasks_request settings template thought).responseFormat = none
    ∧ (extract_tasks_request settings template thought).temperature = 1/10
    ∧ defaultSettings.llm_temperature = 3/10
    ∧ (1 : Rat)/10 < defaultSettings.llm_temperature := by
  refine ⟨rfl, rfl, rfl, ?_⟩
  show (1 : Rat)/10 < defaultSettings.llm_temperature
  norm_num [defaultSettings]

/-- C5: every failure mode of `extract_tasks` — missing prompt file, the
LLM provider raising, non-JSON LLM output, a parsed object lacking the
`"tasks"` key, or a parsed non-object — yields the empty task list instead
of propagating an exception. -/
theorem C5_extract_tasks_best_effort (loads : String → ParseResult)
    (attempts : Nat → CallOutcome) (tmpl thought : String) :
    extract_tasks loads { promptFile := none, attempts := attempts } thought
      = .arr []
    ∧ (∀ m, attempts 0 = .exc m →
        extract_tasks loads { promptFile := some tmpl, attempts := attempts }
          thought = .arr [])
    ∧ (∀ s, attempts 0 = .ok s → loads s = .decodeError →
        extract_tasks loads { promptFile := some tmpl, attempts := attempts }
          thought = .arr [])
    ∧ (∀ s fields, attempts 0 = .ok s → loads s = .ok (.obj fields) →
        dictGet? fields "tasks" = none →
        extract_tasks loads { promptFile := some tmpl, attempts := attempts }
          thought = .arr [])
    ∧ (∀ s j, attempts 0 = .ok s → loads s = .ok j → j.isObj = false →
        extract_tasks loads { promptFile := some tmpl, attempts := attempts }
          thought = .arr []) := by
  refine ⟨rfl, ?_, ?_, ?_, ?_⟩
  · intro m hm
    simp [extract_tasks, run_llm_structured, hm]
  · intro s hs hparse
    simp [extract_tasks, run_llm_structured, hs, hparse]
  · intro s fields hs hparse htasks
    simp [extract_tasks, run_llm_structured, hs, hparse, htasks]
  · intro s j hs hparse hno
    cases j with
    | obj fields => simp [PyJson.isObj] at hno
    | null => simp [extract_tasks, run_llm_structured, hs, hparse]
    | bool b => simp [extract_tasks, run_llm_structured, hs, hparse]
    | num nn => simp [extract_tasks, run_llm_structured, hs, hparse]
    | str ss => simp [extract_tasks, run_llm_structured, hs, hparse]
    | arr xs => simp [extract_tasks, run_llm_structured, hs, hparse]

/-- C5 witness: missing prompt file and a raising provider, at concrete
inputs. -/
theorem C5_extract_tasks_best_effort_witness :
    extract_tasks loadsForWitness
      { promptFile := none, attempts := attemptsAllFail } "a thought" = .arr []
    ∧ extract_tasks loadsForWitness
      { promptFile := some "tmpl", attempts := attemptsAllFail } "a thought"
        = .arr [] :=
  ⟨(C5_extract_tasks_best_effort loadsForWitness attemptsAllFail "tmpl"
      "a thought").1,
   (C5_extract_tasks_best_effort loadsForWitness attemptsAllFail "tmpl"
      "a thought").2.1 "boom" rfl⟩

/-- C6 counterexample: deleting an id from a store that does not contain it
— here the empty collection — returns `true`, not the `false` the claim
requires for a non-existent id. -/
theorem C6_counterexample :
    QdrantVectorStore.delete [] "missing-id" = ([], true) := rfl

/-- C6 (amended): `delete(id)` returns `true` for ANY id on which the
remote delete call succeeds — present or not — rather than `false` for
absent ids; and after deleting a stored id, a subsequent `get_all()` no
longer contains that id. -/
theorem C6_delete_behaviour (state : QdrantVectorStore.QdrantState)
    (doc_id : String) (limit : Nat) :
    (QdrantVectorStore.delete state doc_id).2 = true
    ∧ ((QdrantVectorStore.get_all (QdrantVectorStore.delete state doc_id).1
          limit).all (fun r => r.id != doc_id)) = true := by
  refine ⟨rfl, ?_⟩
  rw [List.all_eq_true]
  intro r hr
  rw [QdrantVectorStore.get_all, List.mem_map] at hr
  obtain ⟨p, hp, rfl⟩ := hr
  have hp' := List.take_subset _ _ hp
  rw [QdrantVectorStore.delete, List.mem_filter] at hp'
  simpa [bne_iff_ne] using of_decide_eq_true hp'.2

/-- C7: `_ensure_collection` invokes `create_collection` exactly when the
named collection is absent; when it already exists the server state is left
entirely unchanged and no creation happens, so a second call after any
first call never creates. -/
theorem C7_ensure_collection_idempotent (cols : List CollectionInfo)
    (name : String) (dim : Int) :
    (name ∈ cols.map (fun c => c.name) →
      QdrantVectorStore.ensure_collection cols name dim = (cols, false))
    ∧ ((QdrantVectorStore.ensure_collection cols name dim).2 = true ↔
        name ∉ cols.map (fun c => c.name))
    ∧ QdrantVectorStore.ensure_collection
        (QdrantVectorStore.ensure_collection cols name dim).1 name dim
      = ((QdrantVectorStore.ensure_collection cols name dim).1, false) := by
  by_cases h : name ∈ cols.map (fun c => c.name)
  · exact ⟨fun _ => by simp [QdrantVectorStore.ensure_collection, h],
      by simp [QdrantVectorStore.ensure_collection, h],
      by simp [QdrantVectorStore.ensure_collection, h]⟩
  · refine ⟨fun hmem => absurd hmem h,
      by simp [QdrantVectorStore.ensure_collection, h], ?_⟩
    have hmem : name ∈ (cols ++
        [({ name := name, size := dim, distance := "Cosine" } :
          CollectionInfo)]).map (fun c => c.name) := by
      simp
    simp [QdrantVectorStore.ensure_collection, h, hmem]

/-- C7 witness: a server already holding the `"ideas"` collection — the
call changes nothing and reports no creation, and ensuring twice from the
empty server never creates the second time. -/
theorem C7_ensure_collection_idempotent_witness :
    QdrantVectorStore.ensure_collection
      [{ name := "ideas", size := 1024, distance := "Cosine" }] "ideas" 1024
      = ([{ name := "ideas", size := 1024, distance := "Cosine" }], false)
    ∧ QdrantVectorStore.ensure_collection
        (QdrantVectorStore.ensure_collection [] "ideas" 1024).1 "ideas" 1024
      = ((QdrantVectorStore.ensure_collection [] "ideas" 1024).1, false) :=
  ⟨(C7_ensure_collection_idempotent
      [{ name := "ideas", size := 1024, distance := "Cosine" }] "ideas"
      1024).1 (by simp),
   (C7_ensure_collection_idempotent [] "ideas" 1024).2.2⟩

/-- C8 counterexample: with the template file missing, `load_prompt`
RETURNS the sentinel string `"Prompt file not found."` as a normal value —
it does not fail with a configuration error. -/
theorem C8_counterexample :
    load_prompt (fun _ => none) "app/prompts/refine_prompt.txt" []
      = .returned "Prompt file not found." := rfl

/-- C8 (amended): when the template file is missing, `load_prompt` catches
the `FileNotFoundError` and returns the literal string
`"Prompt file not found."` instead of failing with a configuration
error. -/
theorem C8_load_prompt_missing_file (fs : String → Option String)
    (file : String) (kwargs : List (String × String)) (h : fs file = none) :
    load_prompt fs file kwargs = .returned "Prompt file not found." := by
  simp [load_prompt, h]

/-- C8 witness: the amended behaviour on an empty file system with one
kwarg. -/
theorem C8_load_prompt_missing_file_witness :
    load_prompt (fun _ => none) "missing.txt" [("name", "value")]
      = .returned "Prompt file not found." :=
  C8_load_prompt_missing_file (fun _ => none) "missing.txt"
    [("name", "value")] rfl

/-- C10: passing `top_k = 0` or `score_threshold = 0.0` to
`retrieve_similar_ideas` or `QdrantVectorStore.search` is silently replaced
by the configured defaults through `or`-defaulting, and whenever the
configured defaults are nonzero no caller argument can make the effective
`top_k` or `score_threshold` zero. -/
theorem C10_truthiness_defaulting (settings : Settings) (top_k : Option Int)
    (score_threshold : Option Rat)
    (htk : settings.rag_top_k ≠ 0) (hst : settings.rag_score_threshold ≠ 0) :
    QdrantVectorStore.search_params settings (some 0) (some 0)
      = (settings.rag_top_k, settings.rag_score_threshold)
    ∧ retrieve_similar_ideas_params settings (some 0) (some 0)
      = (settings.rag_top_k, settings.rag_score_threshold)
    ∧ (QdrantVectorStore.search_params settings top_k score_threshold).1 ≠ 0
    ∧ (QdrantVectorStore.search_params settings top_k score_threshold).2 ≠ 0
    ∧ (retrieve_similar_ideas_params settings top_k score_threshold).1 ≠ 0
    ∧ (retrieve_similar_ideas_params settings top_k score_threshold).2 ≠ 0 := by
  refine ⟨?_, ?_, ?_, ?_, ?_, ?_⟩
  · simp [QdrantVectorStore.search_params, pyOrInt, pyOrRat]
  · simp [retrieve_similar_ideas_params, QdrantVectorStore.search_params,
      pyOrInt, pyOrRat, pyOrInt_self, pyOrRat_self]
  · exact pyOrInt_ne_zero _ _ htk
  · exact pyOrRat_ne_zero _ _ hst
  · simp only [retrieve_similar_ideas_params, QdrantVectorStore.search_params]
    exact pyOrInt_ne_zero _ _ htk
  · simp only [retrieve_similar_ideas_params, QdrantVectorStore.search_params]
    exact pyOrRat_ne_zero _ _ hst

/-- C10 witness: at the default settings, with explicit zero arguments for
the first two conjuncts and the arguments `top_k = 3`,
`score_threshold = 1/2` for the nonzero guarantees. -/
theorem C10_truthiness_defaulting_witness :
    QdrantVectorStore.search_params defaultSettings (some 0) (some 0)
      = (defaultSettings.rag_top_k, defaultSettings.rag_score_threshold)
    ∧ retrieve_similar_ideas_params defaultSettings (some 0) (some 0)
      = (defaultSettings.rag_top_k, defaultSettings.rag_score_threshold)
    ∧ (QdrantVectorStore.search_params defaultSettings (some 3)
        (some (1/2))).1 ≠ 0
    ∧ (QdrantVectorStore.search_params defaultSettings (some 3)
        (some (1/2))).2 ≠ 0
    ∧ (retrieve_similar_ideas_params defaultSettings (some 3)
        (some (1/2))).1 ≠ 0
    ∧ (retrieve_similar_ideas_params defaultSettings (some 3)
        (some (1/2))).2 ≠ 0 :=
  C10_truthiness_defaulting defaultSettings (some 3) (some (1/2))
    (by norm_num [defaultSettings]) (by norm_num [defaultSettings])
